import Mathlib

/-!
Verification of the TP-Link Smart Home wire-protocol engine
(`kasa/protocol.py`, `kasa/auth.py`).

Bytes are modelled as `Nat` (Python `bytes` elements are 0..255; the XOR
cipher is closed on that range, and every theorem below that needs the
range states it explicitly).  Strings are Lean `String`s, UTF-8 encoded via
`String.toUTF8` exactly as the Python `str.encode()` does.
-/

/-- A parsed JSON document, the value domain of the collaborator
serializer (`kasa.json.loads`). -/
inductive Json where
  | null
  | bool (b : Bool)
  | num (n : Int)
  | str (s : String)
  | arr (elems : List Json)
  | obj (entries : List (String × Json))

/-- the Python `needle in v` for a JSON value `v`: key membership on a dict,
element equality on a list, substring on a string; on any other value the
operation raises `TypeError`, modelled as `none`. -/
def pyContains (needle : String) : Json → Option Bool
  | .obj entries => some (entries.any (fun kv => kv.1 == needle))
  | .arr elems =>
    some (elems.any (fun e =>
      match e with
      | .str t => t == needle
      | _ => false))
  | .str s => some (decide (needle.toList <:+: s.toList))
  | _ => none

/-- the Python `v[key]` for a JSON value `v`: dict lookup (a missing key
raises `KeyError`), anything else raises `TypeError`; raising is modelled
as `none`. -/
def pyIndex (key : String) : Json → Option Json
  | .obj entries => (entries.find? (fun kv => kv.1 == key)).map (fun kv => kv.2)
  | _ => none

/-- The `SmartDeviceException` error type used to wrap every failure
surfaced to callers. -/
structure SmartDeviceException where
  msg : String

namespace TPLinkSmartHomeProtocol

/-- Source constant `TPLinkSmartHomeProtocol.INITIALIZATION_VECTOR` from `protocol.py`. -/
def INITIALIZATION_VECTOR : Nat := 171

/-- Source constant `TPLinkSmartHomeProtocol.DEFAULT_PORT` from `protocol.py`. -/
def DEFAULT_PORT : Nat := 9999

/-- The loop body of `_xor_payload`, with the rolling key made explicit:
`key = key ^ unencryptedbyte; yield key`. -/
def xorPayloadGo (key : Nat) : List Nat → List Nat
  | [] => []
  | p :: rest => (key ^^^ p) :: xorPayloadGo (key ^^^ p) rest

/-- Source method `TPLinkSmartHomeProtocol._xor_payload`: rolling-key XOR encoder, key
starts at `INITIALIZATION_VECTOR` (171). -/
def _xor_payload (unencrypted : List Nat) : List Nat :=
  xorPayloadGo INITIALIZATION_VECTOR unencrypted

/-- The loop body of `_xor_encrypted_payload`:
`plainbyte = key ^ cipherbyte; key = cipherbyte; yield plainbyte`. -/
def xorEncryptedGo (key : Nat) : List Nat → List Nat
  | [] => []
  | c :: rest => (key ^^^ c) :: xorEncryptedGo c rest

/-- Source method `TPLinkSmartHomeProtocol._xor_encrypted_payload`: rolling-key XOR
decoder, key starts at `INITIALIZATION_VECTOR` (171). -/
def _xor_encrypted_payload (ciphertext : List Nat) : List Nat :=
  xorEncryptedGo INITIALIZATION_VECTOR ciphertext

/-- Python `struct.pack(">I", n)`: 4-byte big-endian encoding. -/
def packUInt32BE (n : Nat) : List Nat :=
  [n / 2 ^ 24 % 256, n / 2 ^ 16 % 256, n / 2 ^ 8 % 256, n % 256]

/-- Python `struct.unpack(">I", b)[0]` on a 4-byte buffer. -/
def unpackUInt32BE : List Nat → Nat
  | [a, b, c, d] => a * 2 ^ 24 + b * 2 ^ 16 + c * 2 ^ 8 + d
  | _ => 0

/-- Python `str.encode()`: the UTF-8 bytes of a string, as naturals.  This is the
byte payload of `String.toUTF8` (which wraps exactly
`s.data.flatMap String.utf8EncodeChar` in a `ByteArray`). -/
def strBytes (s : String) : List Nat :=
  (s.data.flatMap String.utf8EncodeChar).map (fun b => b.toNat)

/-- The byte-level core of `TPLinkSmartHomeProtocol.encrypt`: length prefix
of the plaintext followed by the cipher stream. -/
def encryptBytes (plainbytes : List Nat) : List Nat :=
  packUInt32BE plainbytes.length ++ _xor_payload plainbytes

/-- Source method `TPLinkSmartHomeProtocol.encrypt`: UTF-8 encode the request, prepend
the 4-byte big-endian plaintext length, append the XOR cipher stream. -/
def encrypt (request : String) : List Nat :=
  encryptBytes (strBytes request)

/-- A UTF-8 continuation byte (`0x80..0xBF`). -/
def isCont (b : Nat) : Bool := 0x80 ≤ b && b ≤ 0xBF

/-- Strict (well-formed) UTF-8 validity of a byte sequence: exactly the
byte strings accepted by the Python `bytes.decode()` — no surrogates, no
overlong encodings, maximum code point `U+10FFFF`. -/
def utf8Valid : List Nat → Bool
  | [] => true
  | b1 :: t1 =>
    if b1 < 0x80 then utf8Valid t1
    else if 0xC2 ≤ b1 ∧ b1 ≤ 0xDF then
      match t1 with
      | b2 :: t2 => isCont b2 && utf8Valid t2
      | [] => false
    else if b1 = 0xE0 then
      match t1 with
      | b2 :: b3 :: t3 => (0xA0 ≤ b2 && b2 ≤ 0xBF) && isCont b3 && utf8Valid t3
      | _ => false
    else if (0xE1 ≤ b1 ∧ b1 ≤ 0xEC) ∨ b1 = 0xEE ∨ b1 = 0xEF then
      match t1 with
      | b2 :: b3 :: t3 => isCont b2 && isCont b3 && utf8Valid t3
      | _ => false
    else if b1 = 0xED then
      match t1 with
      | b2 :: b3 :: t3 => (0x80 ≤ b2 && b2 ≤ 0x9F) && isCont b3 && utf8Valid t3
      | _ => false
    else if b1 = 0xF0 then
      match t1 with
      | b2 :: b3 :: b4 :: t4 =>
        (0x90 ≤ b2 && b2 ≤ 0xBF) && isCont b3 && isCont b4 && utf8Valid t4
      | _ => false
    else if 0xF1 ≤ b1 ∧ b1 ≤ 0xF3 then
      match t1 with
      | b2 :: b3 :: b4 :: t4 =>
        isCont b2 && isCont b3 && isCont b4 && utf8Valid t4
      | _ => false
    else if b1 = 0xF4 then
      match t1 with
      | b2 :: b3 :: b4 :: t4 =>
        (0x80 ≤ b2 && b2 ≤ 0x8F) && isCont b3 && isCont b4 && utf8Valid t4
      | _ => false
    else false

/-- Source method `TPLinkSmartHomeProtocol.decrypt`: XOR-decode the ciphertext and decode
the result as UTF-8 (`bytes.decode()`).  A Python string is modelled as its
valid-UTF-8 byte sequence; the `UnicodeDecodeError` raised on invalid UTF-8
is modelled as `none`. -/
def decrypt (ciphertext : List Nat) : Option (List Nat) :=
  let plain := _xor_encrypted_payload ciphertext
  if utf8Valid plain then some plain else none

/-- The marker test of `try_get_discovery_info`:
`"system" in info and "get_sysinfo" in info["system"]`, with the Python
exception behaviour made explicit (`none` = an exception was raised,
`some false` = the condition evaluated to false, `some true` = accepted). -/
def discoveryMarkerCheck (info : Json) : Option Bool :=
  match pyContains "system" info with
  | none => none
  | some false => some false
  | some true =>
    match pyIndex "system" info with
    | none => none
    | some v => pyContains "get_sysinfo" v

/-- Source method `TPLinkSmartHomeProtocol.try_get_discovery_info`, parameterised by the
collaborator deserializer `loads` (`kasa.json.loads`, which fails on bytes
that are not a JSON document).  On the wrong port: `None`.  Any exception
from `decrypt`, `loads`, or the marker test is caught and turned into
`None`; a document that parses but fails the marker test falls off the end
of the function, which is also `None`. -/
def try_get_discovery_info (loads : List Nat → Option Json) (port : Nat)
    (data : List Nat) : Option Json :=
  if port = DEFAULT_PORT then
    match decrypt data with
    | none => none
    | some plain =>
      match loads plain with
      | none => none
      | some info =>
        match discoveryMarkerCheck info with
        | some true => some info
        | _ => none
  else none

/-- Outcome of one `_connect` dial attempt, mirroring the `except` arms of
`_query`: success, `ConnectionRefusedError`, `OSError` (with its `errno`),
or any other exception (tagged by an identifier). -/
inductive ConnectOutcome where
  | ok
  | refused
  | osError (errnoVal : Nat)
  | other (exnId : Nat)

/-- Outcome of one `_execute_query` call: a JSON payload (abstracted to a
`Nat` identifier) or an exception (tagged by an identifier). -/
inductive ExecOutcome where
  | ok (resp : Nat)
  | fail (exnId : Nat)

/-- The device/network behaviour seen by `_query`, indexed by the loop
variable `retry`: what the dial and the execute step of that iteration
would produce. -/
def Transport := Nat → ConnectOutcome × ExecOutcome

/-- Source constant `_NO_RETRY_ERRORS = {errno.EHOSTDOWN, errno.EHOSTUNREACH,
errno.ECONNREFUSED}` (Linux values 112, 113, 111). -/
def _NO_RETRY_ERRORS : List Nat := [112, 113, 111]

/-- The underlying cause wrapped into the `SmartDeviceException` message
(the `{ex}` part of the f-string). -/
inductive FailCause where
  | refused
  | os (errnoVal : Nat)
  | unexpected (exnId : Nat)
  | execFail (exnId : Nat)

/-- The `SmartDeviceException`s `_query` can raise, modelled structurally:
each carries exactly the data interpolated into its message. -/
inductive QueryError where
  | unableToConnect (host : String) (port : Nat) (cause : FailCause)
  | unableToQuery (host : String) (port : Nat) (cause : FailCause)
  | unreachable

/-- One observable network action of `_query`: a dial or an execute. -/
inductive Ev where
  | dial (o : ConnectOutcome)
  | exec (o : ExecOutcome)

/-- Result of running `_query`: the returned payload or raised error, the
ordered trace of dials/executes performed, and whether the instance still
holds an open stream afterwards. -/
structure QueryOutcome where
  result : Except QueryError Nat
  events : List Ev
  connAfter : Bool

/-- The `for retry in range(retry_count + 1)` loop of `_query`.  `fuel` is
the number of loop iterations left (`retry_count + 1 - retry`); `conn`
says whether `self.writer` is non-null (in which case `_connect` returns
without dialing).  Every failure arm first runs `close()` (so the next
iteration re-dials) exactly as in the source; the fall-off-the-end arm is
the unreachable raise of the source. -/
def queryLoop (host : String) (port : Nat) (tr : Transport)
    (retry_count : Nat) : Nat → Nat → Bool → QueryOutcome
  | _, 0, _ => ⟨.error .unreachable, [], false⟩
  | retry, fuel + 1, conn =>
    match (if conn then ConnectOutcome.ok else (tr retry).1) with
    | .refused =>
      ⟨.error (.unableToConnect host port .refused), [.dial .refused], false⟩
    | .osError e =>
      if e ∈ _NO_RETRY_ERRORS ∨ retry_count ≤ retry then
        ⟨.error (.unableToConnect host port (.os e)), [.dial (.osError e)],
          false⟩
      else
        let rest := queryLoop host port tr retry_count (retry + 1) fuel false
        ⟨rest.result, .dial (.osError e) :: rest.events, rest.connAfter⟩
    | .other ex =>
      if retry_count ≤ retry then
        ⟨.error (.unableToConnect host port (.unexpected ex)),
          [.dial (.other ex)], false⟩
      else
        let rest := queryLoop host port tr retry_count (retry + 1) fuel false
        ⟨rest.result, .dial (.other ex) :: rest.events, rest.connAfter⟩
    | .ok =>
      let dialEvs : List Ev := if conn then [] else [.dial .ok]
      match (tr retry).2 with
      | .ok resp => ⟨.ok resp, dialEvs ++ [.exec (.ok resp)], true⟩
      | .fail ex =>
        if retry_count ≤ retry then
          ⟨.error (.unableToQuery host port (.execFail ex)),
            dialEvs ++ [.exec (.fail ex)], false⟩
        else
          let rest := queryLoop host port tr retry_count (retry + 1) fuel false
          ⟨rest.result, dialEvs ++ .exec (.fail ex) :: rest.events,
            rest.connAfter⟩

/-- Source method `TPLinkSmartHomeProtocol._query` on an instance with no open stream
(the state on first use and after every failure): run the retry loop from
`retry = 0` with `retry_count + 1` iterations available. -/
def _query (host : String) (port : Nat) (tr : Transport)
    (retry_count : Nat) : QueryOutcome :=
  queryLoop host port tr retry_count 0 (retry_count + 1) false

/-- Whether an event is a dial attempt. -/
def Ev.isDial : Ev → Bool
  | .dial _ => true
  | .exec _ => false

/-- Whether an event is an execute attempt. -/
def Ev.isExec : Ev → Bool
  | .dial _ => false
  | .exec _ => true

/-- Number of dial attempts in a trace. -/
def dialCount (t : List Ev) : Nat := (t.filter Ev.isDial).length

/-- Number of execute attempts in a trace. -/
def execCount (t : List Ev) : Nat := (t.filter Ev.isExec).length

/-- The per-instance mutable state of `TPLinkSmartHomeProtocol`:
`self.reader`, `self.writer`, `self.query_lock`, `self.loop`.  Stream
values are ghost-tagged with the identity of the event loop that was
current when `_connect` opened them; `query_lock` records whether the lock
has been created. -/
structure KState where
  reader : Option Nat
  writer : Option Nat
  query_lock : Bool
  loop : Option Nat

/-- The state of a freshly constructed instance: all fields null. -/
def initState : KState := ⟨none, none, false, none⟩

/-- Source method `_reset`: null out reader, writer, loop and query_lock together. -/
def _reset (st : KState) : KState := ⟨none, none, false, none⟩

/-- Source method `_detect_event_loop_change` under current loop `cur`: bind the loop if
none is bound; on a mismatch, `_reset` (note: the source does not rebind
`self.loop` to `cur` after the reset). -/
def _detect_event_loop_change (cur : Nat) (st : KState) : KState :=
  match st.loop with
  | none => { st with loop := some cur }
  | some l => if l = cur then st else _reset st

/-- Source line `if not self.query_lock: self.query_lock = asyncio.Lock()` in `query`. -/
def ensureQueryLock (st : KState) : KState :=
  if st.query_lock then st else { st with query_lock := true }

/-- The state effect of `_connect` under current loop `cur`: reuse an open
stream, otherwise store a fresh reader/writer pair (ghost-tagged with
`cur`). -/
def connectEffect (cur : Nat) (st : KState) : KState :=
  if st.writer.isSome then st
  else { st with reader := some cur, writer := some cur }

/-- The state effect of `close`: null exactly the stream references. -/
def closeState (st : KState) : KState :=
  { st with reader := none, writer := none }

/-- Source method `TPLinkSmartHomeProtocol.close`, with its fallibility made explicit:
take the writer, null both stream references first, then attempt graceful
shutdown — `writer.wait_closed()` may raise (`waitClosedRaises`), and that
exception is suppressed by `contextlib.suppress(Exception)`.  An
uncaught exception would surface as `Except.error`. -/
def close (waitClosedRaises : Bool) (st : KState) : Except Unit KState :=
  match st.writer with
  | some _ =>
    match (if waitClosedRaises then Except.error () else Except.ok ()) with
    | .ok _ => .ok (closeState st)
    | .error _ => .ok (closeState st)
  | none => .ok (closeState st)

/-- State evolution of one successful `query` call under current loop
`cur`: detect loop change, create the lock if needed, connect (execute
succeeds, leaving the stream open). -/
def querySuccessState (cur : Nat) (st : KState) : KState :=
  connectEffect cur (ensureQueryLock (_detect_event_loop_change cur st))

/-- State evolution of a `query` call under current loop `cur` that ends
in a (terminal) I/O failure: same path, but every failure arm of `_query`
runs `close()` before raising. -/
def queryFailureState (cur : Nat) (st : KState) : KState :=
  closeState (connectEffect cur (ensureQueryLock (_detect_event_loop_change cur st)))

theorem xorEncryptedGo_xorPayloadGo (key : Nat) (b : List Nat) :
    xorEncryptedGo key (xorPayloadGo key b) = b := by
  induction b generalizing key with
  | nil => rfl
  | cons p rest ih =>
    simp only [xorPayloadGo, xorEncryptedGo, ih]
    rw [← Nat.xor_assoc, Nat.xor_self, Nat.zero_xor]

theorem length_xorPayloadGo (key : Nat) (b : List Nat) :
    (xorPayloadGo key b).length = b.length := by
  induction b generalizing key with
  | nil => rfl
  | cons p rest ih => simp [xorPayloadGo, ih]

theorem decodeEncode_eq (b : List Nat) :
    _xor_encrypted_payload (_xor_payload b) = b :=
  xorEncryptedGo_xorPayloadGo INITIALIZATION_VECTOR b

end TPLinkSmartHomeProtocol

namespace TPLinkProtocol

/-- Base `TPLinkProtocol.get_discovery_targets`: raises. -/
def get_discovery_targets (targetip : String) :
    Except SmartDeviceException (List (String × Nat)) :=
  .error ⟨"get_discovery_targets should be overridden"⟩

/-- Base `TPLinkProtocol.get_discovery_payload`: raises. -/
def get_discovery_payload : Except SmartDeviceException (List Nat) :=
  .error ⟨"get_discovery_payload should be overridden"⟩

/-- Base `TPLinkProtocol.try_get_discovery_info`: raises. -/
def try_get_discovery_info (port : Nat) (data : List Nat) :
    Except SmartDeviceException (Option Json) :=
  .error ⟨"try_get_discovery_info should be overridden"⟩

/-- Base `TPLinkProtocol.try_query_discovery_info`: raises. -/
def try_query_discovery_info : Except SmartDeviceException (Option Json) :=
  .error ⟨"try_query_discovery_info should be overridden"⟩

/-- Base `TPLinkProtocol.query`: raises. -/
def query (request : String) (retry_count : Nat) :
    Except SmartDeviceException Json :=
  .error ⟨"query should be overridden"⟩

/-- Base `TPLinkProtocol.close`: raises. -/
def close : Except SmartDeviceException Unit :=
  .error ⟨"close should be overridden"⟩

end TPLinkProtocol

namespace TPLinkAuthProtocol

/-- Base `TPLinkAuthProtocol.parse_unauthenticated_info` from `auth.py`:
raises. -/
def parse_unauthenticated_info (unauthenticated_info : Json) :
    Except SmartDeviceException (List (String × String)) :=
  .error ⟨"parse_unauthenticated_info should be overridden"⟩

end TPLinkAuthProtocol

open TPLinkSmartHomeProtocol

/-- C1: for every byte sequence `b`, decoding the encoding of `b` with the
rolling-key XOR stream cipher (key starting at 171) yields `b` again:
`_xor_encrypted_payload(_xor_payload(b)) == b`. -/
theorem cipher_roundtrip (b : List Nat) :
    _xor_encrypted_payload (_xor_payload b) = b :=
  decodeEncode_eq b

/-- C8: encrypting the two-byte plaintext string consisting of an opening
and a closing curly brace produces ciphertext bytes `[0xD0, 0xAD]`, and the
full packed frame returned by `encrypt` is exactly `00 00 00 02 D0 AD`. -/
theorem encrypt_known_vector :
    encrypt "\x7b\x7d" = [0x00, 0x00, 0x00, 0x02, 0xD0, 0xAD] ∧
      (encrypt "\x7b\x7d").drop 4 = [0xD0, 0xAD] := by
  constructor <;> decide

theorem unpackUInt32BE_packUInt32BE (n : Nat) (h : n < 2 ^ 32) :
    unpackUInt32BE (packUInt32BE n) = n := by
  simp only [packUInt32BE, unpackUInt32BE]
  omega

/-- C7: for every plaintext string, the packed frame produced by `encrypt`
is the 4-byte big-endian encoding of the UTF-8 byte length of the plaintext
followed by the ciphertext, and the ciphertext has exactly as many bytes as
the plaintext (the length hypothesis reflects the
32-bit domain of `struct.pack`). -/
theorem encrypt_frame_shape (s : String) (h : (strBytes s).length < 2 ^ 32) :
    encrypt s = packUInt32BE (strBytes s).length ++ _xor_payload (strBytes s) ∧
      (_xor_payload (strBytes s)).length = (strBytes s).length ∧
      unpackUInt32BE ((encrypt s).take 4) = (strBytes s).length := by
  refine ⟨rfl, length_xorPayloadGo _ _, ?_⟩
  have htake : (encrypt s).take 4 = packUInt32BE (strBytes s).length := by
    simp [encrypt, encryptBytes, packUInt32BE]
  rw [htake, unpackUInt32BE_packUInt32BE _ h]

/-- Witness for C7 at the concrete plaintext of two brace characters. -/
theorem encrypt_frame_shape_witness :
    encrypt "\x7b\x7d" =
        packUInt32BE (strBytes "\x7b\x7d").length ++
          _xor_payload (strBytes "\x7b\x7d") ∧
      (_xor_payload (strBytes "\x7b\x7d")).length = (strBytes "\x7b\x7d").length ∧
      unpackUInt32BE ((encrypt "\x7b\x7d").take 4) = (strBytes "\x7b\x7d").length :=
  encrypt_frame_shape "\x7b\x7d" (by decide)

/-- C10: `decrypt` is not total over arbitrary byte sequences — the
ciphertext `[43]` XOR-decodes to `[0x80]`, which is not valid UTF-8, so
`decrypt` fails there; `decrypt` succeeds exactly on ciphertexts whose
XOR-decode is valid UTF-8, and in particular on the cipher stream that
`encrypt` produces from any valid-UTF-8 plaintext. -/
theorem decrypt_partiality :
    (_xor_encrypted_payload [43] = [0x80] ∧ decrypt [43] = none) ∧
      (∀ c p, decrypt c = some p → utf8Valid p = true) ∧
      (∀ p, utf8Valid p = true → decrypt ((encryptBytes p).drop 4) = some p) := by
  refine ⟨⟨by decide, by decide⟩, ?_, ?_⟩
  · intro c p hc
    simp only [decrypt] at hc
    split at hc
    · cases hc
      assumption
    · cases hc
  · intro p hp
    have hdrop : (encryptBytes p).drop 4 = _xor_payload p := by
      simp [encryptBytes, packUInt32BE]
    rw [hdrop]
    simp [decrypt, decodeEncode_eq, hp]

/-- C2: with `retry_count = 3` and a transport whose dial succeeds but
whose execute step fails every time with a retryable error, exactly 4
dial attempts and 4 execute attempts are made, after which `_query` fails
with one wrapped error naming the host, the port, and the final underlying
cause (the execute failure of the last attempt). -/
theorem retry_budget_exhausted (host : String) (port : Nat)
    (causes : Nat → Nat) :
    (_query host port (fun i => (.ok, .fail (causes i))) 3).result =
        .error (.unableToQuery host port (.execFail (causes 3))) ∧
      dialCount (_query host port (fun i => (.ok, .fail (causes i))) 3).events
          = 4 ∧
      execCount (_query host port (fun i => (.ok, .fail (causes i))) 3).events
          = 4 :=
  ⟨rfl, rfl, rfl⟩

/-- C3: whatever the retry budget, a first dial that fails with
connection-refused, or with an `OSError` whose errno is host-down,
host-unreachable, or connection-refused, makes `_query` close the
connection and fail immediately with a wrapped connection error naming
host and port, after exactly one dial attempt. -/
theorem no_retry_fast_fail (host : String) (port : Nat) (tr : Transport)
    (retry_count : Nat)
    (h : (tr 0).1 = .refused ∨
      ∃ e, e ∈ _NO_RETRY_ERRORS ∧ (tr 0).1 = .osError e) :
    (∃ cause, (_query host port tr retry_count).result =
        .error (.unableToConnect host port cause)) ∧
      dialCount (_query host port tr retry_count).events = 1 ∧
      (_query host port tr retry_count).connAfter = false := by
  rcases h with h | ⟨e, he, h⟩
  · simp [_query, queryLoop, h, dialCount, Ev.isDial]
  · simp [_query, queryLoop, h, he, dialCount, Ev.isDial]

/-- Witness for C3 at a transport refusing the first dial. -/
theorem no_retry_fast_fail_witness :
    (∃ cause,
        (_query "host" 9999 (fun _ => (.refused, .fail 0)) 3).result =
          .error (.unableToConnect "host" 9999 cause)) ∧
      dialCount
          (_query "host" 9999 (fun _ => (.refused, .fail 0)) 3).events = 1 ∧
      (_query "host" 9999 (fun _ => (.refused, .fail 0)) 3).connAfter
          = false :=
  no_retry_fast_fail "host" 9999 (fun _ => (.refused, .fail 0)) 3 (Or.inl rfl)

/-- C4: `close` never raises and is idempotent — from every instance
state, and whatever the underlying stream shutdown does (including
raising), two successive `close` calls both return without error, leave
`reader` and `writer` null after each call, and the second call leaves the
state exactly where the first left it. -/
theorem close_idempotent (st : KState) (f1 f2 : Bool) :
    ∃ st1 st2,
      close f1 st = Except.ok st1 ∧ close f2 st1 = Except.ok st2 ∧
      st1.reader = none ∧ st1.writer = none ∧
      st2.reader = none ∧ st2.writer = none ∧ st2 = st1 := by
  refine ⟨closeState st, closeState st, ?_, ?_, rfl, rfl, rfl, rfl, rfl⟩
  · cases h : st.writer <;> cases f1 <;> simp [close, h]
  · cases f2 <;> simp [close, closeState]

/-- Counterexample to C5 as stated, at concrete inputs: after a successful
query under loop 0, an I/O-failure teardown (`close`) nulls only the
stream references — `loop` stays `some 0` and `query_lock` stays `true`,
so the triple is not all-or-nothing; and after a cross-context query under
loop 1, the stream is non-null while `loop` is null, so a non-null stream
does not imply a currently bound owner loop identity. -/
theorem connection_state_counterexample :
    (closeState (querySuccessState 0 initState)).writer = none ∧
      (closeState (querySuccessState 0 initState)).loop = some 0 ∧
      (closeState (querySuccessState 0 initState)).query_lock = true ∧
      (querySuccessState 1 (querySuccessState 0 initState)).writer = some 1 ∧
      (querySuccessState 1 (querySuccessState 0 initState)).loop = none :=
  ⟨rfl, rfl, rfl, rfl, rfl⟩

/-- C5 (amended): `_reset` nulls stream, lock and loop binding together,
and it is exactly what a query from a different event loop than the bound
one triggers; an I/O failure, by contrast, tears down only the stream
references via `close`, leaving the lock and loop binding intact (so the
triple is all-or-nothing only under cross-context reuse, not under I/O
failure, and a non-null stream may coexist with a null loop binding). -/
theorem connection_state_amended (st : KState) (cur : Nat) (l : Nat)
    (hl : st.loop = some l) (hne : l ≠ cur) :
    ((_reset st).reader = none ∧ (_reset st).writer = none ∧
        (_reset st).query_lock = false ∧ (_reset st).loop = none) ∧
      _detect_event_loop_change cur st = _reset st ∧
      ((closeState st).reader = none ∧ (closeState st).writer = none ∧
        (closeState st).query_lock = st.query_lock ∧
        (closeState st).loop = st.loop) := by
  refine ⟨⟨rfl, rfl, rfl, rfl⟩, ?_, rfl, rfl, rfl, rfl⟩
  simp [_detect_event_loop_change, hl, hne]

/-- Witness for the amended form of C5: a state bound to loop 0, queried from
loop 1. -/
theorem connection_state_amended_witness :
    (((_reset (querySuccessState 0 initState)).reader = none ∧
        (_reset (querySuccessState 0 initState)).writer = none ∧
        (_reset (querySuccessState 0 initState)).query_lock = false ∧
        (_reset (querySuccessState 0 initState)).loop = none) ∧
      _detect_event_loop_change 1 (querySuccessState 0 initState) =
          _reset (querySuccessState 0 initState) ∧
      ((closeState (querySuccessState 0 initState)).reader = none ∧
        (closeState (querySuccessState 0 initState)).writer = none ∧
        (closeState (querySuccessState 0 initState)).query_lock =
          (querySuccessState 0 initState).query_lock ∧
        (closeState (querySuccessState 0 initState)).loop =
          (querySuccessState 0 initState).loop)) :=
  connection_state_amended (querySuccessState 0 initState) 1 0 rfl
    (by decide)

/-- C6: `try_get_discovery_info` never throws (it is a total function into
`Option`) and returns `none` for a datagram on the wrong port, for a
datagram whose cipher-decode is not valid UTF-8, for one whose decoded
bytes do not parse as JSON, and for one that parses but whose document
fails the discovery-marker test (`"system"` containing `"get_sysinfo"`),
including when the marker test itself raises. -/
theorem try_get_discovery_info_rejects (loads : List Nat → Option Json)
    (port : Nat) (data : List Nat) :
    (port ≠ DEFAULT_PORT →
        try_get_discovery_info loads port data = none) ∧
      (decrypt data = none → try_get_discovery_info loads port data = none) ∧
      (∀ p, decrypt data = some p → loads p = none →
        try_get_discovery_info loads port data = none) ∧
      (∀ p info, decrypt data = some p → loads p = some info →
        discoveryMarkerCheck info ≠ some true →
        try_get_discovery_info loads port data = none) := by
  refine ⟨fun hp => ?_, fun hd => ?_, fun p hd hl => ?_, fun p info hd hl hm => ?_⟩
  · simp [try_get_discovery_info, hp]
  · simp [try_get_discovery_info, hd]
  · simp [try_get_discovery_info, hd, hl]
  · simp only [try_get_discovery_info, hd, hl]
    rcases hmc : discoveryMarkerCheck info with _ | b
    · simp [hmc]
    · cases b
      · simp [hmc]
      · exact absurd hmc hm

/-- Witness for C6 at concrete datagrams: wrong port; a datagram whose
decode is invalid UTF-8; one whose bytes do not parse; and one parsing to
a document without the marker. -/
theorem try_get_discovery_info_rejects_witness :
    try_get_discovery_info (fun _ => none) 1234 [] = none ∧
      try_get_discovery_info (fun _ => none) 9999 [43] = none ∧
      try_get_discovery_info (fun _ => none) 9999 [0xD0, 0xAD] = none ∧
      try_get_discovery_info (fun _ => some (Json.obj [])) 9999
          [0xD0, 0xAD] = none :=
  ⟨(try_get_discovery_info_rejects (fun _ => none) 1234 []).1 (by decide),
   (try_get_discovery_info_rejects (fun _ => none) 9999 [43]).2.1 (by decide),
   (try_get_discovery_info_rejects (fun _ => none) 9999
       [0xD0, 0xAD]).2.2.1 [123, 125] (by decide) rfl,
   (try_get_discovery_info_rejects (fun _ => some (Json.obj [])) 9999
       [0xD0, 0xAD]).2.2.2 [123, 125] (Json.obj []) (by decide) rfl
     (by simp [discoveryMarkerCheck, pyContains])⟩

/-- C9: every unimplemented capability of the base protocol contract
(`get_discovery_targets`, `get_discovery_payload`, `try_get_discovery_info`,
`try_query_discovery_info`, `query`, `close`) and of the base
authentication extension point (`parse_unauthenticated_info`) fails fast
with an explicit "should be overridden" `SmartDeviceException` rather than
silently doing nothing. -/
theorem base_contract_fails_fast :
    (∀ targetip, TPLinkProtocol.get_discovery_targets targetip =
        .error ⟨"get_discovery_targets should be overridden"⟩) ∧
      TPLinkProtocol.get_discovery_payload =
        .error ⟨"get_discovery_payload should be overridden"⟩ ∧
      (∀ port data, TPLinkProtocol.try_get_discovery_info port data =
        .error ⟨"try_get_discovery_info should be overridden"⟩) ∧
      TPLinkProtocol.try_query_discovery_info =
        .error ⟨"try_query_discovery_info should be overridden"⟩ ∧
      (∀ request retry_count, TPLinkProtocol.query request retry_count =
        .error ⟨"query should be overridden"⟩) ∧
      TPLinkProtocol.close = .error ⟨"close should be overridden"⟩ ∧
      (∀ info, TPLinkAuthProtocol.parse_unauthenticated_info info =
        .error ⟨"parse_unauthenticated_info should be overridden"⟩) :=
  ⟨fun _ => rfl, rfl, fun _ _ => rfl, rfl, fun _ _ => rfl, rfl, fun _ => rfl⟩

/-- Witness for the conditional parts of C10 at concrete inputs. -/
theorem decrypt_partiality_witness :
    utf8Valid [123, 125] = true ∧
      decrypt ((encryptBytes [123, 125]).drop 4) = some [123, 125] ∧
      utf8Valid (_xor_encrypted_payload [0xD0, 0xAD]) = true :=
  ⟨by decide, decrypt_partiality.2.2 [123, 125] (by decide),
   decrypt_partiality.2.1 [0xD0, 0xAD] (_xor_encrypted_payload [0xD0, 0xAD])
     (by decide)⟩
